import Mathlib

/-!
Shallow embedding of the rule
`eslint-plugin-angular-template-consistent-this`
(src/lib/rules/eslint-plugin-angular-template-consistent-this.ts).

The rule walks a parsed Angular template AST.  Visitor callbacks
`Template` and `Element` accumulate template input variables and
template reference names into two registries held in the listener's
closure; the `PropertyRead` callback classifies each name read against
the registries' current contents and possibly reports one violation
with an auto-fix.  We embed the listener as a pure step function over a
document-ordered list of visit events, with the closure state made
explicit.
-/

/-- Policy value of each of the three configuration keys
(`"explicit" | "implicit"` in the JSON schema, lines 49-71 of the source). -/
inductive Mode
  | explicit
  | implicit
deriving DecidableEq, Repr

/-- Modelled from the spec: the receiver classification computed by
`Utils.isImplicitReceiver` / `Utils.isExplicitReceiver` (file
`src/lib/utils.ts` is not in the source tree).  The spec defines
`receiverForm` as an enum: `implicit` (no qualifier), `explicit`
(`this.` qualifier present), `other` (reading off some other
expression, ignored entirely).  The two predicates are mutually
exclusive tests of this form. -/
inductive ReceiverForm
  | implicit
  | explicit
  | other
deriving DecidableEq, Repr

/-- The six message identifiers, named after the keys of `meta.messages`
(lines 72-82 of the source).  `MESSAGE_IDS.<tier>.<mode>` in the source
(file `src/lib/message-ids.ts` is not in the source tree) maps each
tier/mode pair to the corresponding key, as the message texts show. -/
inductive MessageIds
  | explicitThisProperties
  | implicitThisProperties
  | explicitThisVariables
  | implicitThisVariables
  | explicitThisTemplateReferences
  | implicitThisTemplateReferences
deriving DecidableEq, Repr

/-- A source span: byte offsets into the template text.  The source field
named `end` is spelled `stop` here (`end` is a Lean keyword). -/
structure SourceSpan where
  start : Nat
  stop : Nat
deriving DecidableEq, Repr

/-- `VariableAst`: a template input variable declaration (`let foo`).
Only the name takes part in the rule's logic. -/
structure VariableAst where
  name : String
deriving DecidableEq, Repr

/-- `ReferenceAst`: a template reference declaration (`#template`).
Only the name takes part in the rule's logic. -/
structure ReferenceAst where
  name : String
deriving DecidableEq, Repr

/-- `PropertyReadWithParent`: the payload of a `PropertyRead` visit.
`receiver` is the receiver form (see `ReceiverForm`);
`parentParentName` is `node.parent.parent.name`, `none` when the parent
chain two levels up carries no name (in JavaScript the field access then
yields `undefined`, and `Array.prototype.includes` of `undefined` over a
string array is `false`). -/
structure PropertyReadWithParent where
  name : String
  receiver : ReceiverForm
  sourceSpan : SourceSpan
  parentParentName : Option String
deriving DecidableEq, Repr

/-- `RuleOptions`: the three configuration keys (lines 49-71). -/
structure RuleOptions where
  properties : Mode
  «variables» : Mode
  templateReferences : Mode
deriving DecidableEq, Repr

/-- `defaultOptions` (lines 31-37 of the source). -/
def defaultOptions : RuleOptions :=
  ⟨Mode.explicit, Mode.implicit, Mode.implicit⟩

/-- Structural directives that are known to contain template reference
variables (lines 19-23 of the source). -/
def SAFE_STRUCTURAL_DIRECTIVES : List String :=
  ["ngIfThen", "ngIfElse", "ngTemplateOutlet"]

/-- Globals that are safe as they are (lines 25-27 of the source). -/
def SAFE_GLOBALS : List String :=
  ["$event"]

/-- The text edit attached to a violation, mirroring the two fixer calls
in `reportError` (lines 247-256): `fixer.insertTextBeforeRange` at a
point, or `fixer.replaceTextRange` over a range (with replacement text
`""`, a deletion). -/
inductive RuleFix
  | insertTextBeforeRange (rangeStart rangeStop : Nat) (text : String)
  | replaceTextRange (rangeStart rangeStop : Nat) (text : String)
deriving DecidableEq, Repr

/-- One reported violation: message identifier, interpolation value
`prop`, the reported location (start/stop offsets of the read) and the
auto-fix edit. -/
structure Violation where
  messageId : MessageIds
  prop : String
  locStart : Nat
  locStop : Nat
  fix : RuleFix
deriving DecidableEq, Repr

/-- `reportError` (lines 229-258 of the source).  The host round-trip
`getIndexFromLoc (getLocFromIndex i)` used to compute `startIndex` is
modelled as the identity on offsets (the host source-code object is an
external collaborator; the spec describes the fix as anchored at the
read's start offset). -/
def reportError (explicit : Bool) (messageId : MessageIds)
    (propName : String) (span : SourceSpan) : Violation :=
  let startIndex : Nat := span.start
  ⟨messageId, propName, span.start, span.stop,
    if explicit then
      RuleFix.insertTextBeforeRange startIndex startIndex "this."
    else
      RuleFix.replaceTextRange startIndex (startIndex + "this.".length) ""⟩

/-- The tier-4 test (line 180 of the source):
`SAFE_STRUCTURAL_DIRECTIVES.includes(node.parent.parent.name)`.
When the parent chain two levels up carries no name the JavaScript
expression evaluates `includes(undefined)`, which is `false`. -/
def inSafeStructuralDirective (node : PropertyReadWithParent) : Bool :=
  match node.parentParentName with
  | some n => SAFE_STRUCTURAL_DIRECTIVES.contains n
  | none => false

/-- The `PropertyRead` visitor callback (lines 115-219 of the source),
as a function of the configuration, the current contents of the two
registries and the visited node.  Returns the violation reported for
this read, if any. -/
def PropertyRead (options : RuleOptions) («variables» : List VariableAst)
    (templates : List ReferenceAst) (node : PropertyReadWithParent) :
    Option Violation :=
  let isImplicitReceiver : Bool := node.receiver == ReceiverForm.implicit
  let isExplicitReceiver : Bool := node.receiver == ReceiverForm.explicit
  -- We're looking for `ThisReceiver` and `ImplicitReceiver`.
  -- Everything else we're going to ignore.
  if !isImplicitReceiver && !isExplicitReceiver then
    none
  -- Some globals are safe as they are.
  else if SAFE_GLOBALS.contains node.name then
    none
  -- 1) Template *input* variable (`let foo;`).
  else if («variables».map (fun x => x.name)).contains node.name then
    if options.«variables» == Mode.explicit && isImplicitReceiver then
      some (reportError true MessageIds.explicitThisVariables
        node.name node.sourceSpan)
    else if options.«variables» == Mode.implicit && isExplicitReceiver then
      some (reportError false MessageIds.implicitThisVariables
        node.name node.sourceSpan)
    else
      none
  -- 2) Template *reference* variable (`#template`).
  -- This will only catch templates that are defined *before* property reading.
  else if (templates.map (fun x => x.name)).contains node.name then
    if options.templateReferences == Mode.explicit && isImplicitReceiver then
      some (reportError true MessageIds.explicitThisTemplateReferences
        node.name node.sourceSpan)
    else if options.templateReferences == Mode.implicit && isExplicitReceiver then
      some (reportError false MessageIds.implicitThisTemplateReferences
        node.name node.sourceSpan)
    else
      none
  -- 3) Check if property is part of a safe structural directive.
  else if inSafeStructuralDirective node then
    if options.templateReferences == Mode.explicit && isImplicitReceiver then
      some (reportError true MessageIds.explicitThisTemplateReferences
        node.name node.sourceSpan)
    else if options.templateReferences == Mode.implicit && isExplicitReceiver then
      some (reportError false MessageIds.implicitThisTemplateReferences
        node.name node.sourceSpan)
    else
      none
  -- 4) Interpolation of databinding property.
  else
    if options.properties == Mode.explicit && isImplicitReceiver then
      some (reportError true MessageIds.explicitThisProperties
        node.name node.sourceSpan)
    else if options.properties == Mode.implicit && isExplicitReceiver then
      some (reportError false MessageIds.implicitThisProperties
        node.name node.sourceSpan)
    else
      none

/-- The two-branch explicit/implicit policy shared by all tiers: given
the tier's configured mode and its pair of message identifiers, resolve
the read.  (Spelled out inline four times in the source; extracted here
for theorem statements.) -/
def resolveTier (mode : Mode) (explicitMsg implicitMsg : MessageIds)
    (node : PropertyReadWithParent) : Option Violation :=
  if mode == Mode.explicit && node.receiver == ReceiverForm.implicit then
    some (reportError true explicitMsg node.name node.sourceSpan)
  else if mode == Mode.implicit && node.receiver == ReceiverForm.explicit then
    some (reportError false implicitMsg node.name node.sourceSpan)
  else
    none

/-- Tier-2 policy: input variables, governed by `options.«variables»`. -/
def variablesTier (options : RuleOptions) (node : PropertyReadWithParent) :
    Option Violation :=
  resolveTier options.«variables»
    MessageIds.explicitThisVariables MessageIds.implicitThisVariables node

/-- Tier-3/4 policy: template references, governed by
`options.templateReferences`. -/
def templateReferencesTier (options : RuleOptions)
    (node : PropertyReadWithParent) : Option Violation :=
  resolveTier options.templateReferences
    MessageIds.explicitThisTemplateReferences
    MessageIds.implicitThisTemplateReferences node

/-- Tier-5 policy: plain properties, governed by `options.properties`. -/
def propertiesTier (options : RuleOptions) (node : PropertyReadWithParent) :
    Option Violation :=
  resolveTier options.properties
    MessageIds.explicitThisProperties MessageIds.implicitThisProperties node

/-- A visit delivered by the host traversal, in document order.  A
`Template` visit carries the node's input variables and references
(lines 104-107), an `Element` visit its references (lines 109-113), and
a `propertyReadEvent` the read payload (lines 115-219). -/
inductive VisitEvent
  | Template («variables» : List VariableAst) (references : List ReferenceAst)
  | Element (references : List ReferenceAst)
  | propertyReadEvent (node : PropertyReadWithParent)
deriving DecidableEq, Repr

/-- The listener's closure state: the two registries `variables` and
`templates` (lines 93-94 of the source), fresh and empty at each
`createRuleListener` invocation. -/
structure ListenerState where
  «variables» : List VariableAst
  templates : List ReferenceAst
deriving DecidableEq, Repr

/-- The fresh registries allocated by `createRuleListener`. -/
def ListenerState.initial : ListenerState :=
  ⟨[], []⟩

/-- One visitor-callback dispatch: produces the updated closure state and
the violation reported during the callback, if any. -/
def visit (options : RuleOptions) (s : ListenerState) (e : VisitEvent) :
    ListenerState × Option Violation :=
  match e with
  | VisitEvent.Template vars refs =>
      (⟨s.«variables» ++ vars, s.templates ++ refs⟩, none)
  | VisitEvent.Element refs =>
      (if refs.length > 0 then ⟨s.«variables», s.templates ++ refs⟩ else s, none)
  | VisitEvent.propertyReadEvent node =>
      (s, PropertyRead options s.«variables» s.templates node)

/-- Run the listener from a given state over the remaining visits,
collecting the reported violations in order. -/
def runListenerAux (options : RuleOptions) (s : ListenerState) :
    List VisitEvent → List Violation
  | [] => []
  | e :: rest =>
      ((visit options s e).2).toList ++
        runListenerAux options (visit options s e).1 rest

/-- Run the rule listener over a whole template unit: the host dispatches
the visitor callbacks in document order, starting from fresh registries. -/
def runListener (options : RuleOptions) (events : List VisitEvent) :
    List Violation :=
  runListenerAux options ListenerState.initial events

/-- All template reference names declared anywhere in the unit
(by a `Template` or an `Element` visit). -/
def declaredReferences : List VisitEvent → List String
  | [] => []
  | VisitEvent.Template _ refs :: rest =>
      refs.map (fun x => x.name) ++ declaredReferences rest
  | VisitEvent.Element refs :: rest =>
      refs.map (fun x => x.name) ++ declaredReferences rest
  | VisitEvent.propertyReadEvent _ :: rest =>
      declaredReferences rest

/-- Recognizer for property-read visits. -/
def isPropertyReadEvent : VisitEvent → Bool
  | VisitEvent.propertyReadEvent _ => true
  | _ => false

/-! ## Helper lemmas: which tier a read resolves through -/

/-- A read whose receiver is neither implicit nor explicit is ignored. -/
theorem PropertyRead_receiver_other (options : RuleOptions)
    («variables» : List VariableAst) (templates : List ReferenceAst)
    (node : PropertyReadWithParent)
    (hr : node.receiver = ReceiverForm.other) :
    PropertyRead options «variables» templates node = none := by
  simp [PropertyRead, hr]

/-- A safe-global name is never reported. -/
theorem PropertyRead_safe_global (options : RuleOptions)
    («variables» : List VariableAst) (templates : List ReferenceAst)
    (node : PropertyReadWithParent)
    (hg : SAFE_GLOBALS.contains node.name = true) :
    PropertyRead options «variables» templates node = none := by
  have hg2 : node.name ∈ SAFE_GLOBALS := by simpa using hg
  cases hr : node.receiver <;> simp [PropertyRead, hr, hg2]

/-- A read of a registered input-variable name resolves through the
variables tier. -/
theorem PropertyRead_variables_tier (options : RuleOptions)
    («variables» : List VariableAst) (templates : List ReferenceAst)
    (node : PropertyReadWithParent)
    (hv : («variables».map (fun x => x.name)).contains node.name = true)
    (hg : SAFE_GLOBALS.contains node.name = false) :
    PropertyRead options «variables» templates node =
      variablesTier options node := by
  have hv2 : ∃ a ∈ «variables», a.name = node.name := by simpa using hv
  have hg2 : node.name ∉ SAFE_GLOBALS := by simpa using hg
  cases hr : node.receiver <;>
    simp [PropertyRead, variablesTier, resolveTier, hr, hv2, hg2]

/-- A read of a name in the templates registry (and not an input
variable) resolves through the template-references tier. -/
theorem PropertyRead_templates_tier (options : RuleOptions)
    («variables» : List VariableAst) (templates : List ReferenceAst)
    (node : PropertyReadWithParent)
    (hv : («variables».map (fun x => x.name)).contains node.name = false)
    (ht : (templates.map (fun x => x.name)).contains node.name = true)
    (hg : SAFE_GLOBALS.contains node.name = false) :
    PropertyRead options «variables» templates node =
      templateReferencesTier options node := by
  have hv2 : ¬ ∃ a ∈ «variables», a.name = node.name := by simpa using hv
  have ht2 : ∃ a ∈ templates, a.name = node.name := by simpa using ht
  have hg2 : node.name ∉ SAFE_GLOBALS := by simpa using hg
  cases hr : node.receiver <;>
    simp [PropertyRead, templateReferencesTier, resolveTier, hr, hv2, ht2, hg2]

/-- A read in neither registry whose host directive is in the structural
safe list resolves through the template-references tier. -/
theorem PropertyRead_directive_tier (options : RuleOptions)
    («variables» : List VariableAst) (templates : List ReferenceAst)
    (node : PropertyReadWithParent)
    (hv : («variables».map (fun x => x.name)).contains node.name = false)
    (ht : (templates.map (fun x => x.name)).contains node.name = false)
    (hg : SAFE_GLOBALS.contains node.name = false)
    (hd : inSafeStructuralDirective node = true) :
    PropertyRead options «variables» templates node =
      templateReferencesTier options node := by
  have hv2 : ¬ ∃ a ∈ «variables», a.name = node.name := by simpa using hv
  have ht2 : ¬ ∃ a ∈ templates, a.name = node.name := by simpa using ht
  have hg2 : node.name ∉ SAFE_GLOBALS := by simpa using hg
  cases hr : node.receiver <;>
    simp [PropertyRead, templateReferencesTier, resolveTier, hr, hv2, ht2, hg2,
      hd]

/-- A read matching no earlier tier resolves through the plain-property
tier. -/
theorem PropertyRead_properties_tier (options : RuleOptions)
    («variables» : List VariableAst) (templates : List ReferenceAst)
    (node : PropertyReadWithParent)
    (hv : («variables».map (fun x => x.name)).contains node.name = false)
    (ht : (templates.map (fun x => x.name)).contains node.name = false)
    (hg : SAFE_GLOBALS.contains node.name = false)
    (hd : inSafeStructuralDirective node = false) :
    PropertyRead options «variables» templates node =
      propertiesTier options node := by
  have hv2 : ¬ ∃ a ∈ «variables», a.name = node.name := by simpa using hv
  have ht2 : ¬ ∃ a ∈ templates, a.name = node.name := by simpa using ht
  have hg2 : node.name ∉ SAFE_GLOBALS := by simpa using hg
  cases hr : node.receiver <;>
    simp [PropertyRead, propertiesTier, resolveTier, hr, hv2, ht2, hg2, hd]

/-- Every run of the callback is `none` or the result of one of the
three tier resolvers on the read. -/
theorem PropertyRead_eq_cases (options : RuleOptions)
    («variables» : List VariableAst) (templates : List ReferenceAst)
    (node : PropertyReadWithParent) :
    PropertyRead options «variables» templates node = none ∨
    PropertyRead options «variables» templates node =
      variablesTier options node ∨
    PropertyRead options «variables» templates node =
      templateReferencesTier options node ∨
    PropertyRead options «variables» templates node =
      propertiesTier options node := by
  cases hg : SAFE_GLOBALS.contains node.name
  · cases hv : («variables».map (fun x => x.name)).contains node.name
    · cases ht : (templates.map (fun x => x.name)).contains node.name
      · cases hd : inSafeStructuralDirective node
        · exact Or.inr (Or.inr (Or.inr
            (PropertyRead_properties_tier options «variables» templates node
              hv ht hg hd)))
        · exact Or.inr (Or.inr (Or.inl
            (PropertyRead_directive_tier options «variables» templates node
              hv ht hg hd)))
      · exact Or.inr (Or.inr (Or.inl
          (PropertyRead_templates_tier options «variables» templates node
            hv ht hg)))
    · exact Or.inr (Or.inl
        (PropertyRead_variables_tier options «variables» templates node hv hg))
  · exact Or.inl
      (PropertyRead_safe_global options «variables» templates node hg)

/-- A violation produced by the two-branch policy carries the insertion
fix when the receiver was implicit and the deletion fix when it was
explicit. -/
theorem resolveTier_fix (mode : Mode) (explicitMsg implicitMsg : MessageIds)
    (node : PropertyReadWithParent) (v : Violation)
    (h : resolveTier mode explicitMsg implicitMsg node = some v) :
    (node.receiver = ReceiverForm.implicit →
      v.fix = RuleFix.insertTextBeforeRange node.sourceSpan.start
        node.sourceSpan.start "this.") ∧
    (node.receiver = ReceiverForm.explicit →
      v.fix = RuleFix.replaceTextRange node.sourceSpan.start
        (node.sourceSpan.start + "this.".length) "") := by
  cases mode <;> cases hr : node.receiver <;>
    simp [resolveTier, hr, reportError] at h <;>
    simp [hr, ← h, reportError]

/-- A violation produced by the two-branch policy requires an implicit
or explicit receiver. -/
theorem resolveTier_receiver (mode : Mode)
    (explicitMsg implicitMsg : MessageIds)
    (node : PropertyReadWithParent) (v : Violation)
    (h : resolveTier mode explicitMsg implicitMsg node = some v) :
    node.receiver = ReceiverForm.implicit ∨
      node.receiver = ReceiverForm.explicit := by
  cases mode <;> cases hr : node.receiver <;>
    simp [resolveTier, hr] at h <;> simp [hr]

/-- A violation produced by the two-branch policy carries one of the
tier's two message identifiers. -/
theorem resolveTier_messageId (mode : Mode)
    (explicitMsg implicitMsg : MessageIds)
    (node : PropertyReadWithParent) (v : Violation)
    (h : resolveTier mode explicitMsg implicitMsg node = some v) :
    v.messageId = explicitMsg ∨ v.messageId = implicitMsg := by
  cases mode <;> cases hr : node.receiver <;>
    simp [resolveTier, hr, reportError] at h
  all_goals subst h
  all_goals simp

/-- Each property-read visit contributes at most one violation to the
run's output; other visits contribute none. -/
theorem runListenerAux_length_le (options : RuleOptions) :
    ∀ (events : List VisitEvent) (s : ListenerState),
      (runListenerAux options s events).length ≤
        (events.filter isPropertyReadEvent).length := by
  intro events
  induction events with
  | nil => intro s; simp [runListenerAux]
  | cons e rest ih =>
      intro s
      cases e with
      | Template vs rs =>
          simpa [runListenerAux, visit, isPropertyReadEvent] using ih _
      | Element rs =>
          simpa [runListenerAux, visit, isPropertyReadEvent] using ih _
      | propertyReadEvent node =>
          have h1 := ih s
          cases h : PropertyRead options s.«variables» s.templates node <;>
            simp [runListenerAux, visit, isPropertyReadEvent, h] <;> omega

/-! ## The claims -/

/-- The template unit of the C1 counterexample: a property read of
`tpl` (implicit receiver, host directive `div`), followed in document
order by a template declaring the reference `#tpl`. -/
def c1Node : PropertyReadWithParent :=
  ⟨"tpl", ReceiverForm.implicit, ⟨10, 13⟩, some "div"⟩

/-- Visit sequence of the C1 counterexample, in document order. -/
def c1Events : List VisitEvent :=
  [VisitEvent.propertyReadEvent c1Node, VisitEvent.Template [] [⟨"tpl"⟩]]

/-- C1, counterexample: under the default configuration (properties
explicit, templateReferences implicit), a read of `tpl` occurring
before the declaration of reference `#tpl` is reported through
`config.properties` (message kind `explicitThisProperties`), although
`tpl` is declared as a template reference in the unit and the
template-references policy would produce nothing for this read.  A
reference declared after its use point therefore does not classify the
read into the template-reference tier, contrary to the claim. -/
theorem c1_counterexample :
    declaredReferences c1Events = ["tpl"] ∧
    runListener defaultOptions c1Events =
      [reportError true MessageIds.explicitThisProperties "tpl" ⟨10, 13⟩] ∧
    templateReferencesTier defaultOptions c1Node = none := by
  decide

/-- C1, amended: a template reference is visible to a read only when it
was registered before the read is visited.  For a read whose name is in
the templates registry at visit time (and is neither a registered input
variable nor a safe global), the template-reference tier resolves it:
`config.templateReferences`, not `config.properties`, determines
whether a violation is produced. -/
theorem c1_amended_snapshot (options : RuleOptions) (s : ListenerState)
    (node : PropertyReadWithParent)
    (ht : (s.templates.map (fun x => x.name)).contains node.name = true)
    (hv : (s.«variables».map (fun x => x.name)).contains node.name = false)
    (hg : SAFE_GLOBALS.contains node.name = false) :
    (visit options s (VisitEvent.propertyReadEvent node)).2 =
      templateReferencesTier options node :=
  PropertyRead_templates_tier options s.«variables» s.templates node hv ht hg

theorem c1_amended_witness :
    (visit defaultOptions ⟨[], [⟨"tpl"⟩]⟩
        (VisitEvent.propertyReadEvent
          ⟨"tpl", ReceiverForm.explicit, ⟨20, 23⟩, none⟩)).2 =
      templateReferencesTier defaultOptions
        ⟨"tpl", ReceiverForm.explicit, ⟨20, 23⟩, none⟩ :=
  c1_amended_snapshot defaultOptions ⟨[], [⟨"tpl"⟩]⟩
    ⟨"tpl", ReceiverForm.explicit, ⟨20, 23⟩, none⟩
    (by decide) (by decide) (by decide)

/-- C2: a read whose parent chain carries no name two levels up never
matches the structural-directive safe list, and when it also matches no
earlier tier it falls through to the plain-property tier (applying
`config.properties`); the callback is total, so no error is raised. -/
theorem c2_missing_ancestor (options : RuleOptions)
    («variables» : List VariableAst) (templates : List ReferenceAst)
    (node : PropertyReadWithParent)
    (hp : node.parentParentName = none) :
    inSafeStructuralDirective node = false ∧
    (SAFE_GLOBALS.contains node.name = false →
      («variables».map (fun x => x.name)).contains node.name = false →
      (templates.map (fun x => x.name)).contains node.name = false →
      PropertyRead options «variables» templates node =
        propertiesTier options node) := by
  have hd : inSafeStructuralDirective node = false := by
    simp [inSafeStructuralDirective, hp]
  exact ⟨hd, fun hg hv ht =>
    PropertyRead_properties_tier options «variables» templates node hv ht hg hd⟩

theorem c2_witness :
    PropertyRead defaultOptions [] []
        ⟨"name", ReceiverForm.implicit, ⟨5, 9⟩, none⟩ =
      propertiesTier defaultOptions
        ⟨"name", ReceiverForm.implicit, ⟨5, 9⟩, none⟩ :=
  (c2_missing_ancestor defaultOptions [] []
      ⟨"name", ReceiverForm.implicit, ⟨5, 9⟩, none⟩ rfl).2
    (by decide) (by decide) (by decide)

/-- C3: for a read of a registered input-variable name (not a safe
global): with `variables = explicit` an explicit-variables violation is
produced iff the receiver form is implicit; with `variables = implicit`
an implicit-variables violation is produced iff the form is explicit;
every other form/config combination produces nothing. -/
theorem c3_variables_policy (options : RuleOptions)
    («variables» : List VariableAst) (templates : List ReferenceAst)
    (node : PropertyReadWithParent)
    (hv : («variables».map (fun x => x.name)).contains node.name = true)
    (hg : SAFE_GLOBALS.contains node.name = false) :
    (options.«variables» = Mode.explicit →
      (PropertyRead options «variables» templates node =
          some (reportError true MessageIds.explicitThisVariables
            node.name node.sourceSpan) ↔
        node.receiver = ReceiverForm.implicit)) ∧
    (options.«variables» = Mode.implicit →
      (PropertyRead options «variables» templates node =
          some (reportError false MessageIds.implicitThisVariables
            node.name node.sourceSpan) ↔
        node.receiver = ReceiverForm.explicit)) ∧
    (¬(options.«variables» = Mode.explicit ∧
        node.receiver = ReceiverForm.implicit) →
      ¬(options.«variables» = Mode.implicit ∧
        node.receiver = ReceiverForm.explicit) →
      PropertyRead options «variables» templates node = none) := by
  rw [PropertyRead_variables_tier options «variables» templates node hv hg]
  cases hm : options.«variables» <;> cases hr : node.receiver <;>
    simp [variablesTier, resolveTier, hm, hr, reportError]

theorem c3_witness :
    PropertyRead ⟨Mode.explicit, Mode.explicit, Mode.explicit⟩ [⟨"item"⟩] []
        ⟨"item", ReceiverForm.implicit, ⟨0, 4⟩, none⟩ =
      some (reportError true MessageIds.explicitThisVariables "item" ⟨0, 4⟩) :=
  ((c3_variables_policy ⟨Mode.explicit, Mode.explicit, Mode.explicit⟩
      [⟨"item"⟩] [] ⟨"item", ReceiverForm.implicit, ⟨0, 4⟩, none⟩
      (by decide) (by decide)).1 rfl).mpr rfl

/-- C4: a read of a safe-global name (the event-object name `$event`)
never produces a violation, for every configuration, all registry
contents and every receiver form. -/
theorem c4_safe_global_never_reported (options : RuleOptions)
    («variables» : List VariableAst) (templates : List ReferenceAst)
    (node : PropertyReadWithParent)
    (hg : SAFE_GLOBALS.contains node.name = true) :
    PropertyRead options «variables» templates node = none :=
  PropertyRead_safe_global options «variables» templates node hg

theorem c4_witness :
    PropertyRead defaultOptions [] []
        ⟨"$event", ReceiverForm.implicit, ⟨0, 6⟩, none⟩ = none :=
  c4_safe_global_never_reported defaultOptions [] []
    ⟨"$event", ReceiverForm.implicit, ⟨0, 6⟩, none⟩ (by decide)

/-- C5: a name registered both as an input variable and as a template
reference resolves via the input-variable tier: when the name is not a
safe global the outcome is exactly the variables-tier resolution, and
any violation produced carries a variables-kind message, never a
templateReferences-kind one. -/
theorem c5_variable_precedence (options : RuleOptions)
    («variables» : List VariableAst) (templates : List ReferenceAst)
    (node : PropertyReadWithParent)
    (hv : («variables».map (fun x => x.name)).contains node.name = true)
    (ht : (templates.map (fun x => x.name)).contains node.name = true) :
    (SAFE_GLOBALS.contains node.name = false →
      PropertyRead options «variables» templates node =
        variablesTier options node) ∧
    (∀ v : Violation,
      PropertyRead options «variables» templates node = some v →
        v.messageId = MessageIds.explicitThisVariables ∨
        v.messageId = MessageIds.implicitThisVariables) := by
  constructor
  · exact fun hg =>
      PropertyRead_variables_tier options «variables» templates node hv hg
  · intro v hsome
    cases hg : SAFE_GLOBALS.contains node.name
    · rw [PropertyRead_variables_tier options «variables» templates node hv hg]
        at hsome
      simp only [variablesTier] at hsome
      exact resolveTier_messageId options.«variables» _ _ node v hsome
    · rw [PropertyRead_safe_global options «variables» templates node hg]
        at hsome
      exact absurd hsome (by simp)

theorem c5_witness :
    PropertyRead defaultOptions [⟨"foo"⟩] [⟨"foo"⟩]
        ⟨"foo", ReceiverForm.explicit, ⟨2, 5⟩, none⟩ =
      variablesTier defaultOptions
        ⟨"foo", ReceiverForm.explicit, ⟨2, 5⟩, none⟩ :=
  (c5_variable_precedence defaultOptions [⟨"foo"⟩] [⟨"foo"⟩]
      ⟨"foo", ReceiverForm.explicit, ⟨2, 5⟩, none⟩
      (by decide) (by decide)).1 (by decide)

/-- C6: a run reports at most one violation per property-read visit
(the output sequence is never longer than the number of property-read
visits), and every reported violation carries exactly one of the six
message kinds. -/
theorem c6_at_most_one_violation (options : RuleOptions)
    (events : List VisitEvent) :
    (runListener options events).length ≤
      (events.filter isPropertyReadEvent).length ∧
    (runListener options events).all (fun v =>
      v.messageId == MessageIds.explicitThisProperties ||
      v.messageId == MessageIds.implicitThisProperties ||
      v.messageId == MessageIds.explicitThisVariables ||
      v.messageId == MessageIds.implicitThisVariables ||
      v.messageId == MessageIds.explicitThisTemplateReferences ||
      v.messageId == MessageIds.implicitThisTemplateReferences) = true := by
  refine ⟨runListenerAux_length_le options events ListenerState.initial, ?_⟩
  rw [List.all_eq_true]
  intro v _
  cases h : v.messageId <;> simp [h]

/-- C7: a read in neither registry whose two-levels-up host directive
name is in the structural-directive allow-list resolves through the
template-references policy; in particular with
`templateReferences = implicit` and an explicit receiver it produces
the implicit-templateReferences violation. -/
theorem c7_structural_directive (options : RuleOptions)
    («variables» : List VariableAst) (templates : List ReferenceAst)
    (node : PropertyReadWithParent) (d : String)
    (hv : («variables».map (fun x => x.name)).contains node.name = false)
    (ht : (templates.map (fun x => x.name)).contains node.name = false)
    (hg : SAFE_GLOBALS.contains node.name = false)
    (hp : node.parentParentName = some d)
    (hd : SAFE_STRUCTURAL_DIRECTIVES.contains d = true) :
    PropertyRead options «variables» templates node =
      templateReferencesTier options node ∧
    (options.templateReferences = Mode.implicit →
      node.receiver = ReceiverForm.explicit →
      PropertyRead options «variables» templates node =
        some (reportError false MessageIds.implicitThisTemplateReferences
          node.name node.sourceSpan)) := by
  have hd2 : inSafeStructuralDirective node = true := by
    have hd3 : d ∈ SAFE_STRUCTURAL_DIRECTIVES := by simpa using hd
    simp [inSafeStructuralDirective, hp, hd3]
  have h :=
    PropertyRead_directive_tier options «variables» templates node hv ht hg hd2
  refine ⟨h, fun hm hr => ?_⟩
  rw [h]
  simp [templateReferencesTier, resolveTier, hm, hr]

theorem c7_witness :
    PropertyRead defaultOptions [] []
        ⟨"tpl", ReceiverForm.explicit, ⟨7, 10⟩, some "ngIfThen"⟩ =
      some (reportError false MessageIds.implicitThisTemplateReferences
        "tpl" ⟨7, 10⟩) :=
  (c7_structural_directive defaultOptions [] []
      ⟨"tpl", ReceiverForm.explicit, ⟨7, 10⟩, some "ngIfThen"⟩ "ngIfThen"
      (by decide) (by decide) (by decide) rfl (by decide)).2 rfl rfl

/-- C8: every reported violation carries one of exactly two fix shapes
anchored at the read's start offset: a zero-width insertion of the
token `this.` at the start offset when the receiver was implicit, and a
deletion of the range from the start offset to the start offset plus
the token's length when the receiver was explicit (one of the two
receivers is forced, since otherwise no violation is produced). -/
theorem c8_fix_shapes (options : RuleOptions)
    («variables» : List VariableAst) (templates : List ReferenceAst)
    (node : PropertyReadWithParent) (v : Violation)
    (h : PropertyRead options «variables» templates node = some v) :
    (node.receiver = ReceiverForm.implicit ∨
      node.receiver = ReceiverForm.explicit) ∧
    (node.receiver = ReceiverForm.implicit →
      v.fix = RuleFix.insertTextBeforeRange node.sourceSpan.start
        node.sourceSpan.start "this.") ∧
    (node.receiver = ReceiverForm.explicit →
      v.fix = RuleFix.replaceTextRange node.sourceSpan.start
        (node.sourceSpan.start + "this.".length) "") := by
  rcases PropertyRead_eq_cases options «variables» templates node with
    h0 | h1 | h1 | h1
  · rw [h0] at h
    exact absurd h (by simp)
  all_goals rw [h1] at h
  · simp only [variablesTier] at h
    exact ⟨resolveTier_receiver _ _ _ _ _ h, (resolveTier_fix _ _ _ _ _ h).1,
      (resolveTier_fix _ _ _ _ _ h).2⟩
  · simp only [templateReferencesTier] at h
    exact ⟨resolveTier_receiver _ _ _ _ _ h, (resolveTier_fix _ _ _ _ _ h).1,
      (resolveTier_fix _ _ _ _ _ h).2⟩
  · simp only [propertiesTier] at h
    exact ⟨resolveTier_receiver _ _ _ _ _ h, (resolveTier_fix _ _ _ _ _ h).1,
      (resolveTier_fix _ _ _ _ _ h).2⟩

theorem c8_witness :
    (⟨MessageIds.explicitThisProperties, "name", 3, 7,
        RuleFix.insertTextBeforeRange 3 3 "this."⟩ : Violation).fix =
      RuleFix.insertTextBeforeRange 3 3 "this." :=
  (c8_fix_shapes defaultOptions [] []
      ⟨"name", ReceiverForm.implicit, ⟨3, 7⟩, none⟩
      ⟨MessageIds.explicitThisProperties, "name", 3, 7,
        RuleFix.insertTextBeforeRange 3 3 "this."⟩ (by decide)).2.1 rfl

/-- C9: visiting a property read leaves both registries unchanged, and
every visit only ever appends to them — Template visits add their
variables and references, Element visits add their references, nothing
is ever removed, so both registries grow monotonically over the
traversal. -/
theorem c9_registries_frame :
    (∀ (options : RuleOptions) (s : ListenerState)
        (node : PropertyReadWithParent),
      (visit options s (VisitEvent.propertyReadEvent node)).1 = s) ∧
    (∀ (options : RuleOptions) (s : ListenerState) (e : VisitEvent),
      ∃ (newVars : List VariableAst) (newRefs : List ReferenceAst),
        (visit options s e).1.«variables» = s.«variables» ++ newVars ∧
        (visit options s e).1.templates = s.templates ++ newRefs) := by
  constructor
  · intro options s node
    rfl
  · intro options s e
    cases e with
    | Template vs rs => exact ⟨vs, rs, rfl, rfl⟩
    | Element rs =>
        by_cases h : rs.length > 0
        · exact ⟨[], rs, by simp [visit, h], by simp [visit, h]⟩
        · exact ⟨[], [], by simp [visit, h], by simp [visit, h]⟩
    | propertyReadEvent node => exact ⟨[], [], by simp [visit], by simp [visit]⟩

/-- C10: the engine is deterministic: two runs of the listener over
equal configurations and equal visit sequences (each starting from its
own fresh registries) produce equal violation sequences — same message
kinds, names, locations and fixes. -/
theorem c10_deterministic (optionsA optionsB : RuleOptions)
    (eventsA eventsB : List VisitEvent)
    (ho : optionsA = optionsB) (he : eventsA = eventsB) :
    runListener optionsA eventsA = runListener optionsB eventsB := by
  rw [ho, he]

theorem c10_witness :
    runListener defaultOptions
        [VisitEvent.propertyReadEvent
          ⟨"x", ReceiverForm.implicit, ⟨0, 1⟩, none⟩] =
      runListener defaultOptions
        [VisitEvent.propertyReadEvent
          ⟨"x", ReceiverForm.implicit, ⟨0, 1⟩, none⟩] :=
  c10_deterministic defaultOptions defaultOptions
    [VisitEvent.propertyReadEvent ⟨"x", ReceiverForm.implicit, ⟨0, 1⟩, none⟩]
    [VisitEvent.propertyReadEvent ⟨"x", ReceiverForm.implicit, ⟨0, 1⟩, none⟩]
    rfl rfl
